import Mathlib

/-!
# Shallow embedding of `mcp-stock-market` (src/index.js)

The repository is an MCP server exposing seven tool handlers, each of which
reads an API key from the environment, issues HTTP GET request(s) to the
Alpha Vantage endpoint, inspects the parsed JSON response, and returns a
`ToolResult` (a list of text blocks) or throws an `Error`.

Embedding conventions:
* The environment variable `ALPHA_VANTAGE_API_KEY` is an explicit `String`
  parameter `apiKey`; the JS truthiness test `!apiKey` (unset or empty) is
  modelled as `apiKey = ""`.
* The network is an explicit function from the request parameters to a
  response record; each handler's response record carries `ok : Bool`
  (HTTP `res.ok`) and the JSON fields the handler reads, optional fields as
  `Option`.
* JSON string fields that the code only interpolates into text are
  `Option String`; an absent field renders as "undefined", as a JS template
  literal does.
* JSON numeric-string fields that the code feeds to `parseFloat`
  (the quote price, the exchange rate) are modelled by their parsed rational
  value: `some q` stands for a nonempty numeric string parsing to `q`,
  `none` for an absent or empty (JS-falsy) field.  JS numbers are modelled
  as `ℚ` (exact; the claims under study are insensitive to binary float
  rounding).
* A thrown `Error` (or runtime `TypeError`) is `Except.error msg`.
* Each handler returns an `Outcome`: the list of URLs actually fetched
  (in order) together with the `Except`-result, so that "no network request
  is issued" is a statement about the `fetched` component.
-/

/-- A `ToolResult`: the `content` array; each element is one `type:"text"`
block's text. -/
structure ToolResult where
  content : List String
deriving DecidableEq, Repr

deriving instance DecidableEq for Except

/-- A handler invocation outcome: the URLs fetched, in order, and the result
(`Except.error` models a thrown `Error`). -/
structure Outcome where
  fetched : List String
  result : Except String ToolResult
deriving DecidableEq, Repr

/-- JS truthiness of an optional string field: `undefined` and `""` are
falsy. -/
def jsTruthy : Option String → Bool
  | none => false
  | some s => !s.isEmpty

/-- Rendering of an optional string field in a JS template literal:
`undefined` prints as "undefined". -/
def jsStr : Option String → String
  | none => "undefined"
  | some s => s

/-- JS `String.prototype.toUpperCase()`, character by character (ASCII; the
handlers apply it to ticker and currency symbols). -/
def jsToUpper (s : String) : String :=
  String.mk (s.data.map Char.toUpper)

/-- JS `s.substring(0, n)`: the first `n` characters of `s` (all of `s` when
it is shorter). -/
def jsSubstringTo (s : String) (n : Nat) : String :=
  String.mk (s.data.take n)

/-- Zero-padded decimal rendering of `n` to at least `k` digits. -/
def natDecimalPad (n : Nat) (k : Nat) : String :=
  let s := toString n
  String.mk (List.replicate (k - s.length) '0') ++ s

/-- Addition on ℚ in explicitly renormalizing form (`mkRat` on the cross
product); kernel-evaluable, and provably equal to `a + b` (`qAdd_eq` below).
The library's `Rat.add` is `@[irreducible]`, which would block evaluating
the embedded handlers on concrete inputs. -/
def qAdd (a b : ℚ) : ℚ :=
  mkRat (a.num * b.den + b.num * a.den) (a.den * b.den)

/-- Multiplication on ℚ in explicitly renormalizing form; provably equal to
`a * b` (`qMul_eq` below). -/
def qMul (a b : ℚ) : ℚ :=
  mkRat (a.num * b.num) (a.den * b.den)

/-- The integer `n` with `n = ⌊q * 100 + 1/2⌋` (proved in `jsRound2_eq`
below), computed directly on `num`/`den` so that it kernel-evaluates:
ECMA-262 `toFixed(2)` rounding (nearest, ties toward +infinity). -/
def jsRound2 (q : ℚ) : Int :=
  Int.fdiv (q.num * 200 + q.den) (2 * q.den)

/-- JS `Number.prototype.toFixed(2)`: round to the nearest multiple of 1/100,
ties toward +infinity (ECMA-262 picks the larger candidate), and render with
exactly two fraction digits. -/
def toFixed2 (q : ℚ) : String :=
  let n : Int := jsRound2 q
  let sgn := if n < 0 then "-" else ""
  let m := n.natAbs
  sgn ++ toString (m / 100) ++ "." ++ natDecimalPad (m % 100) 2

/-- Smallest `k ≤ 20` with `d ∣ 10 ^ k`, if any. -/
def pow10Exp (d : Nat) : Option Nat :=
  (List.range 21).find? (fun k => decide (d ∣ 10 ^ k))

/-- Default JS rendering `${x}` of a number, modelled for rationals with a
power-of-ten denominator (the shapes the provider and the claims use);
matches JS on integers and finite decimals. -/
def qToString (q : ℚ) : String :=
  match pow10Exp q.den with
  | some 0 => toString q.num
  | some (k + 1) =>
      let m := q.num.natAbs * (10 ^ (k + 1) / q.den)
      (if q.num < 0 then "-" else "") ++
        toString (m / 10 ^ (k + 1)) ++ "." ++ natDecimalPad (m % 10 ^ (k + 1)) (k + 1)
  | none => toString q.num ++ "/" ++ toString q.den

/-! ## getStockPrice -/

/-- The fields of `data["Global Quote"]` that `getStockPrice` and
`calculatePortfolioValue` read.  `price` models the numeric string
`"05. price"` (see header: `none` = absent or empty, hence JS-falsy). -/
structure GlobalQuote where
  price : Option ℚ
  change : Option String
  changePercent : Option String
deriving DecidableEq, Repr

/-- An HTTP response to a `GLOBAL_QUOTE` request: `ok` is `res.ok`,
`globalQuote` is the optional `data["Global Quote"]` object. -/
structure QuoteResponse where
  ok : Bool
  globalQuote : Option GlobalQuote
deriving DecidableEq, Repr

/-- The price field of a quote response, if the quote object and its price
field are both present (the code's `!quote || !quote["05. price"]`). -/
def priceOf (resp : QuoteResponse) : Option ℚ :=
  match resp.globalQuote with
  | none => none
  | some q => q.price

def quoteUrl (symbol apiKey : String) : String :=
  "https://www.alphavantage.co/query?function=GLOBAL_QUOTE&symbol=" ++ symbol
    ++ "&apikey=" ++ apiKey

/-- Handler `getStockPrice({symbol})` of src/index.js. -/
def getStockPrice (apiKey : String) (net : String → QuoteResponse)
    (symbol : String) : Outcome :=
  if apiKey = "" then
    ⟨[], .error "Error: Missing ALPHA_VANTAGE_API_KEY environment variable."⟩
  else
    let url := quoteUrl symbol apiKey
    let res := net symbol
    if !res.ok then ⟨[url], .error ("Failed to get stock price for " ++ symbol)⟩
    else
      match priceOf res with
      | none => ⟨[url], .error ("No price data found for " ++ symbol)⟩
      | some p =>
        let quote := (res.globalQuote).getD ⟨none, none, none⟩
        ⟨[url], .ok ⟨["Stock: " ++ jsToUpper symbol ++ "\nPrice: $" ++ qToString p
          ++ "\nChange: " ++ jsStr quote.change ++ " (" ++ jsStr quote.changePercent ++ ")"]⟩⟩

/-! ## getStockNews -/

/-- One element of `data.feed`. -/
structure NewsItem where
  title : Option String
  url : Option String
deriving DecidableEq, Repr

/-- Response to a `NEWS_SENTIMENT` request. -/
structure NewsResponse where
  ok : Bool
  feed : Option (List NewsItem)
deriving DecidableEq, Repr

def newsUrl (symbol apiKey : String) : String :=
  "https://www.alphavantage.co/query?function=NEWS_SENTIMENT&tickers=" ++ symbol
    ++ "&apikey=" ++ apiKey

/-- Handler `getStockNews({symbol})` of src/index.js. -/
def getStockNews (apiKey : String) (net : String → NewsResponse)
    (symbol : String) : Outcome :=
  if apiKey = "" then
    ⟨[], .error "Error: Missing ALPHA_VANTAGE_API_KEY environment variable."⟩
  else
    let url := newsUrl symbol apiKey
    let res := net symbol
    if !res.ok then ⟨[url], .error ("Failed to get news for " ++ symbol)⟩
    else
      match res.feed with
      | none => ⟨[url], .ok ⟨["No recent news found for " ++ symbol]⟩⟩
      | some feed =>
        if feed.length = 0 then ⟨[url], .ok ⟨["No recent news found for " ++ symbol]⟩⟩
        else
          let topNews := String.intercalate "\n\n" ((feed.take 3).enum.map
            (fun p => toString (p.1 + 1) ++ ". " ++ jsStr p.2.title ++ "\n" ++ jsStr p.2.url))
          ⟨[url], .ok ⟨["Latest news for " ++ jsToUpper symbol ++ ":\n\n" ++ topNews]⟩⟩

/-! ## getCompanyOverview -/

/-- Response to an `OVERVIEW` request: the JSON fields the handler reads. -/
structure OverviewResponse where
  ok : Bool
  name : Option String
  sector : Option String
  industry : Option String
  description : Option String
deriving DecidableEq, Repr

def overviewUrl (symbol apiKey : String) : String :=
  "https://www.alphavantage.co/query?function=OVERVIEW&symbol=" ++ symbol
    ++ "&apikey=" ++ apiKey

/-- The message of the JS `TypeError` raised by
`data.Description.substring(0, 300)` when `data.Description` is `undefined`. -/
def descriptionTypeError : String :=
  "TypeError: Cannot read properties of undefined (reading 'substring')"

/-- Handler `getCompanyOverview({symbol})` of src/index.js.  Note: when `data.Name`
is truthy but `data.Description` is absent, the unguarded
`data.Description.substring(0, 300)` raises a `TypeError`. -/
def getCompanyOverview (apiKey : String) (net : String → OverviewResponse)
    (symbol : String) : Outcome :=
  if apiKey = "" then ⟨[], .error "API key not set."⟩
  else
    let url := overviewUrl symbol apiKey
    let res := net symbol
    if !res.ok then ⟨[url], .error ("Failed to get company overview for " ++ symbol)⟩
    else if !jsTruthy res.name then
      ⟨[url], .error ("No overview data found for " ++ symbol)⟩
    else
      match res.description with
      | none => ⟨[url], .error descriptionTypeError⟩
      | some d =>
        ⟨[url], .ok ⟨["Company: " ++ jsStr res.name
          ++ "\nSector: " ++ jsStr res.sector
          ++ "\nIndustry: " ++ jsStr res.industry
          ++ "\nDescription: " ++ jsSubstringTo d 300 ++ "..."]⟩⟩

/-! ## getDividendHistory -/

/-- One element of `data["historical"]`. -/
structure DividendItem where
  date : Option String
  dividend : Option String
deriving DecidableEq, Repr

/-- Response to a `DIVIDEND_HISTORY` request. -/
structure DividendResponse where
  ok : Bool
  historical : Option (List DividendItem)
deriving DecidableEq, Repr

def dividendUrl (symbol apiKey : String) : String :=
  "https://www.alphavantage.co/query?function=DIVIDEND_HISTORY&symbol=" ++ symbol
    ++ "&apikey=" ++ apiKey

/-- Handler `getDividendHistory({symbol})` of src/index.js. -/
def getDividendHistory (apiKey : String) (net : String → DividendResponse)
    (symbol : String) : Outcome :=
  if apiKey = "" then ⟨[], .error "API key not set."⟩
  else
    let url := dividendUrl symbol apiKey
    let res := net symbol
    if !res.ok then ⟨[url], .error ("Failed to get dividend history for " ++ symbol)⟩
    else
      match res.historical with
      | none => ⟨[url], .ok ⟨["No dividend history found for " ++ symbol]⟩⟩
      | some hist =>
        if hist.length = 0 then ⟨[url], .ok ⟨["No dividend history found for " ++ symbol]⟩⟩
        else
          let lines := (hist.take 3).map (fun d => jsStr d.date ++ ": $" ++ jsStr d.dividend)
          ⟨[url], .ok ⟨["Recent dividends for " ++ jsToUpper symbol ++ ":\n"
            ++ String.intercalate "\n" lines]⟩⟩

/-! ## getIntraday -/

/-- One value of the `"Time Series (5min)"` mapping. -/
structure IntradayPoint where
  popen : Option String
  pclose : Option String
deriving DecidableEq, Repr

/-- Response to a `TIME_SERIES_INTRADAY` request.  The `"Time Series (5min)"`
mapping is modelled as an association list preserving the provider-returned
key order (JS object key insertion order, as `Object.keys` observes it). -/
structure IntradayResponse where
  ok : Bool
  series : Option (List (String × IntradayPoint))
deriving DecidableEq, Repr

def intradayUrl (symbol apiKey : String) : String :=
  "https://www.alphavantage.co/query?function=TIME_SERIES_INTRADAY&symbol=" ++ symbol
    ++ "&interval=5min&apikey=" ++ apiKey

/-- The per-timestamp line of `getIntraday`. -/
def intradayLine (e : String × IntradayPoint) : String :=
  e.1 ++ ": Open $" ++ jsStr e.2.popen ++ ", Close $" ++ jsStr e.2.pclose

/-- Handler `getIntraday({symbol})` of src/index.js. -/
def getIntraday (apiKey : String) (net : String → IntradayResponse)
    (symbol : String) : Outcome :=
  if apiKey = "" then ⟨[], .error "API key not set."⟩
  else
    let url := intradayUrl symbol apiKey
    let res := net symbol
    if !res.ok then ⟨[url], .error ("Failed to get intraday data for " ++ symbol)⟩
    else
      match res.series with
      | none => ⟨[url], .error ("No intraday data found for " ++ symbol)⟩
      | some series =>
        let lines := (series.take 3).map intradayLine
        ⟨[url], .ok ⟨["Recent intraday (5min) prices for " ++ jsToUpper symbol ++ ":\n"
          ++ String.intercalate "\n" lines]⟩⟩

/-! ## convertCurrency -/

/-- The `amount` argument as the handler can receive it: absent, a number,
or (bypassing the schema) a string such as "abc". -/
inductive JsAmount where
  | undef : JsAmount
  | num : ℚ → JsAmount
  | str : String → JsAmount
deriving DecidableEq, Repr

/-- Nonempty run of decimal digits to a natural number; `none` on a
non-digit or on the empty list. -/
def parseDigits (cs : List Char) : Option Nat :=
  if cs.isEmpty then none
  else cs.foldl (fun acc c => acc.bind fun n =>
    if c.isDigit then some (n * 10 + (c.toNat - 48)) else none) (some 0)

/-- JS `Number(s)` for a plain decimal literal (optional sign, digits,
optional fraction); `""` coerces to 0, anything else non-numeric to `none`
(standing for NaN).  Exponents, hex and whitespace trimming are out of the
claims' scope. -/
def strToNum? (s : String) : Option ℚ :=
  let cs := s.data
  if cs.isEmpty then some 0
  else
    let signed : Int × List Char :=
      match cs with
      | '-' :: t => (-1, t)
      | '+' :: t => (1, t)
      | _ => (1, cs)
    let sgn := signed.1
    let body := signed.2
    match body.span (fun c => c ≠ '.') with
    | (intPart, []) => (parseDigits intPart).map (fun n => mkRat (sgn * n) 1)
    | (intPart, _ :: fracPart) =>
      if intPart.isEmpty && fracPart.isEmpty then none
      else do
        let ip ← if intPart.isEmpty then some 0 else parseDigits intPart
        let fp ← if fracPart.isEmpty then some 0 else parseDigits fracPart
        some (mkRat (sgn * (ip * 10 ^ fracPart.length + fp)) (10 ^ fracPart.length))

/-- JS falsiness of the `amount` argument (`!amount`): `undefined`, `0` and
`""` are falsy. -/
def jsAmountFalsy : JsAmount → Bool
  | .undef => true
  | .num q => q = 0
  | .str s => s.isEmpty

/-- JS `isNaN(amount)` (global `isNaN`, which coerces with `Number`):
`undefined` is NaN, every number in the model is not (ℚ has no NaN, and a
NaN amount cannot pass the schema), a string is NaN iff it does not parse. -/
def jsIsNaN : JsAmount → Bool
  | .undef => true
  | .num _ => false
  | .str s => (strToNum? s).isNone

/-- The numeric value of `amount` as used in `amount * rate` (only reached
when the amount passed the falsy/NaN check). -/
def jsAmountVal : JsAmount → ℚ
  | .undef => 0
  | .num q => q
  | .str s => (strToNum? s).getD 0

/-- Rendering of `${amount}` in the result template. -/
def jsAmountStr : JsAmount → String
  | .undef => "undefined"
  | .num q => qToString q
  | .str s => s

/-- The `data["Realtime Currency Exchange Rate"]` object: the exchange rate
is a numeric string fed to `parseFloat`, modelled by its value. -/
structure RateInfo where
  exchangeRate : ℚ
  lastRefreshed : Option String
deriving DecidableEq, Repr

/-- Response to a `CURRENCY_EXCHANGE_RATE` request. -/
structure RateResponse where
  ok : Bool
  rateInfo : Option RateInfo
deriving DecidableEq, Repr

def currencyUrl (from_currency to_currency apiKey : String) : String :=
  "https://www.alphavantage.co/query?function=CURRENCY_EXCHANGE_RATE&from_currency="
    ++ from_currency ++ "&to_currency=" ++ to_currency ++ "&apikey=" ++ apiKey

/-- Handler `convertCurrency({amount, from_currency, to_currency})` of src/index.js.
Note the argument checks run before the API-key check. -/
def convertCurrency (apiKey : String) (net : String → String → RateResponse)
    (amount : JsAmount) (from_currency to_currency : String) : Outcome :=
  if jsAmountFalsy amount || jsIsNaN amount then
    ⟨[], .error "Amount must be a number"⟩
  else if from_currency = "" ∨ to_currency = "" then
    ⟨[], .error "from_currency and to_currency are required"⟩
  else if apiKey = "" then ⟨[], .error "API key not set."⟩
  else
    let url := currencyUrl from_currency to_currency apiKey
    let res := net from_currency to_currency
    if !res.ok then
      ⟨[url], .error ("Failed to get exchange rate from " ++ from_currency
        ++ " to " ++ to_currency)⟩
    else
      match res.rateInfo with
      | none => ⟨[url], .error "No exchange rate data found"⟩
      | some ri =>
        let rate := ri.exchangeRate
        let converted := toFixed2 (qMul (jsAmountVal amount) rate)
        ⟨[url], .ok ⟨[jsAmountStr amount ++ " " ++ jsToUpper from_currency ++ " = "
          ++ converted ++ " " ++ jsToUpper to_currency
          ++ "\nExchange Rate: " ++ qToString rate
          ++ "\nLast Refreshed: " ++ jsStr ri.lastRefreshed]⟩⟩

/-! ## calculatePortfolioValue -/

/-- One element of the `holdings` argument (schema: symbol string, shares
number). -/
structure Holding where
  symbol : String
  shares : ℚ
deriving DecidableEq, Repr

/-- The loop state of `calculatePortfolioValue`: URLs fetched so far, the
`details` array, and the running `totalValue`. -/
structure PState where
  fetched : List String
  details : List String
  total : ℚ
deriving DecidableEq, Repr

/-- The detail line pushed for one holding:
``${shares} shares of ${symbol.toUpperCase()} at $${price.toFixed(2)} = $${value.toFixed(2)}``
with `value = price * shares`. -/
def holdingLine (h : Holding) (price : ℚ) : String :=
  qToString h.shares ++ " shares of " ++ jsToUpper h.symbol ++ " at $"
    ++ toFixed2 price ++ " = $" ++ toFixed2 (qMul price h.shares)

/-- One iteration of the `for (const { symbol, shares } of holdings)` loop:
skip on falsy symbol or shares (`!symbol || !shares`, no fetch), fetch, skip
on HTTP failure or missing quote/price, otherwise push a detail line and add
the unrounded value to the running total. -/
def portfolioStep (apiKey : String) (net : String → QuoteResponse)
    (st : PState) (h : Holding) : PState :=
  if h.symbol = "" ∨ h.shares = 0 then st
  else
    let st1 : PState := { st with fetched := st.fetched ++ [quoteUrl h.symbol apiKey] }
    let res := net h.symbol
    if !res.ok then st1
    else
      match priceOf res with
      | none => st1
      | some price =>
        { st1 with
          details := st1.details ++ [holdingLine h price]
          total := qAdd st1.total (qMul price h.shares) }

/-- The whole loop, started from the empty state. -/
def portfolioRun (apiKey : String) (net : String → QuoteResponse)
    (holdings : List Holding) : PState :=
  holdings.foldl (portfolioStep apiKey net) ⟨[], [], 0⟩

/-- The final text block of `calculatePortfolioValue`. -/
def portfolioText (details : List String) (total : ℚ) : String :=
  "Portfolio Value:\n" ++ String.intercalate "\n" details
    ++ "\n\nTotal Estimated Value: $" ++ toFixed2 total

/-- Handler `calculatePortfolioValue({holdings})` of src/index.js. -/
def calculatePortfolioValue (apiKey : String) (net : String → QuoteResponse)
    (holdings : List Holding) : Outcome :=
  if apiKey = "" then ⟨[], .error "API key not set."⟩
  else if holdings.isEmpty then ⟨[], .error "holdings must be a non-empty array"⟩
  else
    let st := portfolioRun apiKey net holdings
    ⟨st.fetched, .ok ⟨[portfolioText st.details st.total]⟩⟩

/-! ## Derived views of the portfolio loop, for the correctness statements -/

/-- Whether the loop issues a fetch for this holding (the `!symbol || !shares`
truthiness gate). -/
def attemptsFetch (h : Holding) : Bool :=
  !(h.symbol = "" ∨ h.shares = 0 : Bool)

/-- Whether this holding contributes a detail line and a value: truthy symbol
and shares, successful fetch, quote object and price field present. -/
def contributes (net : String → QuoteResponse) (h : Holding) : Bool :=
  if h.symbol = "" ∨ h.shares = 0 then false
  else (net h.symbol).ok && (priceOf (net h.symbol)).isSome

/-- The detail line a contributing holding produces. -/
def holdingDetail (net : String → QuoteResponse) (h : Holding) : String :=
  holdingLine h ((priceOf (net h.symbol)).getD 0)

/-- The unrounded value a contributing holding adds to the total. -/
def holdingValue (net : String → QuoteResponse) (h : Holding) : ℚ :=
  (priceOf (net h.symbol)).getD 0 * h.shares

/-! ## Supporting lemmas -/

/-- Lemma: `qMul` is multiplication on ℚ. -/
theorem qMul_eq (a b : ℚ) : qMul a b = a * b := by
  have hda : ((a.den : ℚ)) ≠ 0 := Nat.cast_ne_zero.2 a.den_nz
  have hdb : ((b.den : ℚ)) ≠ 0 := Nat.cast_ne_zero.2 b.den_nz
  have ha : (a.num : ℚ) = a * a.den := (div_eq_iff hda).mp (Rat.num_div_den a)
  have hb : (b.num : ℚ) = b * b.den := (div_eq_iff hdb).mp (Rat.num_div_den b)
  unfold qMul
  rw [Rat.mkRat_eq_div]
  push_cast
  rw [div_eq_iff (mul_ne_zero hda hdb), ha, hb]
  ring

/-- Lemma: `qAdd` is addition on ℚ. -/
theorem qAdd_eq (a b : ℚ) : qAdd a b = a + b := by
  have hda : ((a.den : ℚ)) ≠ 0 := Nat.cast_ne_zero.2 a.den_nz
  have hdb : ((b.den : ℚ)) ≠ 0 := Nat.cast_ne_zero.2 b.den_nz
  have ha : (a.num : ℚ) = a * a.den := (div_eq_iff hda).mp (Rat.num_div_den a)
  have hb : (b.num : ℚ) = b * b.den := (div_eq_iff hdb).mp (Rat.num_div_den b)
  unfold qAdd
  rw [Rat.mkRat_eq_div]
  push_cast
  rw [div_eq_iff (mul_ne_zero hda hdb), ha, hb]
  ring

/-- Lemma: `jsRound2` is rounding to the nearest 1/100 with ties toward +infinity,
as a floor expression. -/
theorem jsRound2_eq (q : ℚ) : jsRound2 q = ⌊q * 100 + 1 / 2⌋ := by
  have hd : ((q.den : ℚ)) ≠ 0 := Nat.cast_ne_zero.2 q.den_nz
  have hq : q * 100 + 1 / 2 = ((q.num * 200 + q.den : Int) : ℚ) / ((2 * q.den : Nat) : ℚ) := by
    conv_lhs => rw [← Rat.num_div_den q]
    push_cast
    field_simp
    ring
  rw [hq, Rat.floor_intCast_div_natCast]
  unfold jsRound2
  rw [Int.fdiv_eq_ediv _ (by positivity)]
  push_cast
  rfl

/-- The loop of `calculatePortfolioValue`, from any starting state: it
fetches once per holding with truthy symbol and shares, appends one detail
line per contributing holding, and adds exactly the contributing holdings'
unrounded values to the running total. -/
theorem portfolioStep_foldl (apiKey : String) (net : String → QuoteResponse)
    (holdings : List Holding) (st : PState) :
    holdings.foldl (portfolioStep apiKey net) st =
      { fetched := st.fetched ++
          (holdings.filter attemptsFetch).map (fun h => quoteUrl h.symbol apiKey),
        details := st.details ++
          (holdings.filter (contributes net)).map (holdingDetail net),
        total := st.total +
          ((holdings.filter (contributes net)).map (holdingValue net)).sum } := by
  induction holdings generalizing st with
  | nil => simp
  | cons h t ih =>
    by_cases hskip : h.symbol = "" ∨ h.shares = 0
    · have h1 : portfolioStep apiKey net st h = st := by
        simp [portfolioStep, hskip]
      have h2 : attemptsFetch h = false := by
        simp [attemptsFetch, hskip]
      have h3 : contributes net h = false := by
        simp [contributes, hskip]
      simp only [List.foldl_cons, List.filter_cons, h1, h2, h3]
      simp [ih]
    · have h2 : attemptsFetch h = true := by
        simp [attemptsFetch, hskip]
      by_cases hok : (net h.symbol).ok
      · cases hp : priceOf (net h.symbol) with
        | none =>
          have h3 : contributes net h = false := by
            simp [contributes, hskip, hp]
          have h1 : portfolioStep apiKey net st h =
              { st with fetched := st.fetched ++ [quoteUrl h.symbol apiKey] } := by
            simp [portfolioStep, hskip, hok, hp]
          rw [List.foldl_cons, h1, ih]
          simp [List.filter_cons, h2, h3]
        | some p =>
          have h3 : contributes net h = true := by
            simp [contributes, hskip, hok, hp]
          have h1 : portfolioStep apiKey net st h =
              { fetched := st.fetched ++ [quoteUrl h.symbol apiKey],
                details := st.details ++ [holdingLine h p],
                total := st.total + p * h.shares } := by
            simp [portfolioStep, hskip, hok, hp, qAdd_eq, qMul_eq]
          rw [List.foldl_cons, h1, ih]
          simp [List.filter_cons, h2, h3, holdingDetail, holdingValue, hp, add_assoc]
      · have h3 : contributes net h = false := by
          simp [contributes, hskip, hok]
        have h1 : portfolioStep apiKey net st h =
            { st with fetched := st.fetched ++ [quoteUrl h.symbol apiKey] } := by
          simp [portfolioStep, hskip, hok]
        rw [List.foldl_cons, h1, ih]
        simp [List.filter_cons, h2, h3]

/-! ## Claims -/

/-- Claim C1: in `calculatePortfolioValue`, a holding whose upstream fetch
fails or whose response lacks a price field (or whose symbol/shares are
JS-falsy, in which case no fetch is even attempted) is skipped: it
contributes no detail line and nothing to the total, while every holding
with a successful fetch and a present price contributes exactly one detail
line and its price-times-shares value; the result is exactly the
contributing holdings' lines and the once-rounded sum of their unrounded
values. -/
theorem C1_portfolio_skips_failed_holdings (apiKey : String)
    (net : String → QuoteResponse) (holdings : List Holding)
    (hk : apiKey ≠ "") (hne : holdings ≠ []) :
    calculatePortfolioValue apiKey net holdings =
      ⟨(holdings.filter attemptsFetch).map (fun h => quoteUrl h.symbol apiKey),
       .ok ⟨[portfolioText
          ((holdings.filter (contributes net)).map (holdingDetail net))
          (((holdings.filter (contributes net)).map (holdingValue net)).sum)]⟩⟩ := by
  unfold calculatePortfolioValue
  rw [if_neg hk, if_neg (by simp [hne])]
  unfold portfolioRun
  rw [portfolioStep_foldl]
  simp

/-- Witness for C1 at the spec's example: holdings AAPL (10 shares, price
150) and BAD (5 shares, upstream returns no quote): the result has exactly
AAPL's valuation line, no BAD line, and the total is exactly AAPL's value. -/
theorem C1_witness :
    (("k" : String) ≠ "" ∧ ([(⟨"AAPL", 10⟩ : Holding), ⟨"BAD", 5⟩] : List Holding) ≠ []) ∧
    (calculatePortfolioValue "k"
      (fun s => if s = "AAPL" then ⟨true, some ⟨some 150, none, none⟩⟩ else ⟨true, none⟩)
      [⟨"AAPL", 10⟩, ⟨"BAD", 5⟩] =
      ⟨(([(⟨"AAPL", 10⟩ : Holding), ⟨"BAD", 5⟩].filter attemptsFetch).map
          (fun h => quoteUrl h.symbol "k")),
       .ok ⟨[portfolioText
          (([(⟨"AAPL", 10⟩ : Holding), ⟨"BAD", 5⟩].filter
            (contributes (fun s => if s = "AAPL" then ⟨true, some ⟨some 150, none, none⟩⟩ else ⟨true, none⟩))).map
            (holdingDetail (fun s => if s = "AAPL" then ⟨true, some ⟨some 150, none, none⟩⟩ else ⟨true, none⟩)))
          ((([(⟨"AAPL", 10⟩ : Holding), ⟨"BAD", 5⟩].filter
            (contributes (fun s => if s = "AAPL" then ⟨true, some ⟨some 150, none, none⟩⟩ else ⟨true, none⟩))).map
            (holdingValue (fun s => if s = "AAPL" then ⟨true, some ⟨some 150, none, none⟩⟩ else ⟨true, none⟩))).sum)]⟩⟩) ∧
    calculatePortfolioValue "k"
      (fun s => if s = "AAPL" then ⟨true, some ⟨some 150, none, none⟩⟩ else ⟨true, none⟩)
      [⟨"AAPL", 10⟩, ⟨"BAD", 5⟩] =
      ⟨[quoteUrl "AAPL" "k", quoteUrl "BAD" "k"],
       .ok ⟨["Portfolio Value:\n10 shares of AAPL at $150.00 = $1500.00\n\nTotal Estimated Value: $1500.00"]⟩⟩ :=
  ⟨⟨by decide, by decide⟩,
   C1_portfolio_skips_failed_holdings "k"
     (fun s => if s = "AAPL" then ⟨true, some ⟨some 150, none, none⟩⟩ else ⟨true, none⟩)
     [⟨"AAPL", 10⟩, ⟨"BAD", 5⟩] (by decide) (by decide),
   by decide⟩

/-- Claim C3, counterexample: for a holding with price 123.4 and shares 3, the
unrounded value added to the running total is 370.2, not 370.4 as the claim
states (123.4 x 3 = 370.2). -/
theorem C3_counterexample :
    (portfolioRun "k" (fun _ => ⟨true, some ⟨some (mkRat 1234 10), none, none⟩⟩)
      [⟨"X", 3⟩]).total = mkRat 3702 10 ∧
    (mkRat 3702 10 : ℚ) = 370.2 ∧ (mkRat 3702 10 : ℚ) ≠ 370.4 := by
  refine ⟨by decide, ?_, ?_⟩
  · rw [Rat.mkRat_eq_div]; norm_num
  · rw [Rat.mkRat_eq_div]; norm_num

/-- Claim C3, amended: for price 123.4 and shares 3 the detail line contains
the 2-decimal string 370.20 and the holding adds the unrounded 370.2 (not
370.4) to the running total; in general the displayed total is the sum of
the unrounded per-holding values, rounded to 2 decimals once, at formatting
time (`portfolioText` applies `toFixed2` to the raw sum). -/
theorem C3_rounding_semantics (apiKey : String) (net : String → QuoteResponse)
    (holdings : List Holding) (hk : apiKey ≠ "") (hne : holdings ≠ []) :
    holdingLine ⟨"X", 3⟩ (mkRat 1234 10) = "3 shares of X at $123.40 = $370.20" ∧
    qMul (mkRat 1234 10) 3 = mkRat 3702 10 ∧
    (calculatePortfolioValue apiKey net holdings).result =
      .ok ⟨[portfolioText
        ((holdings.filter (contributes net)).map (holdingDetail net))
        (((holdings.filter (contributes net)).map (holdingValue net)).sum)]⟩ := by
  refine ⟨by decide, by decide, ?_⟩
  unfold calculatePortfolioValue
  rw [if_neg hk, if_neg (by simp [hne])]
  unfold portfolioRun
  rw [portfolioStep_foldl]
  simp

/-- Witness for C3: one holding of 3 shares at price 123.4; line and total
both display 370.20, the total being rounded from the unrounded 370.2. -/
theorem C3_witness :
    (("k" : String) ≠ "" ∧ ([(⟨"X", 3⟩ : Holding)] : List Holding) ≠ []) ∧
    holdingLine ⟨"X", 3⟩ (mkRat 1234 10) = "3 shares of X at $123.40 = $370.20" ∧
    (calculatePortfolioValue "k" (fun _ => ⟨true, some ⟨some (mkRat 1234 10), none, none⟩⟩)
      [⟨"X", 3⟩]).result =
      .ok ⟨["Portfolio Value:\n3 shares of X at $123.40 = $370.20\n\nTotal Estimated Value: $370.20"]⟩ :=
  ⟨⟨by decide, by decide⟩,
   (C3_rounding_semantics "k" (fun _ => ⟨true, some ⟨some (mkRat 1234 10), none, none⟩⟩)
     [⟨"X", 3⟩] (by decide) (by decide)).1,
   by decide⟩

/-- Claim C2, counterexample: `convertCurrency` validates its arguments before
the API-key check, so with the key unset and `amount = 0` the invocation
fails with the invalid-input message "Amount must be a number", not with a
missing-key message (though still without a network request). -/
theorem C2_counterexample :
    convertCurrency "" (fun _ _ => ⟨true, none⟩) (.num 0) "USD" "EUR" =
      ⟨[], .error "Amount must be a number"⟩ ∧
    ("Amount must be a number" : String) ≠ "API key not set." ∧
    ("Amount must be a number" : String) ≠
      "Error: Missing ALPHA_VANTAGE_API_KEY environment variable." := by
  exact ⟨by decide, by decide, by decide⟩

/-- Claim C2, amended: with the API-key variable unset or empty, the six
handlers other than `convertCurrency` fail unconditionally with their
descriptive missing-key message and fetch nothing; `convertCurrency` does so
provided its own input validation passes (truthy numeric amount, both
currency codes present), and in every case it issues no network request. -/
theorem C2_missing_key (netQ : String → QuoteResponse) (netN : String → NewsResponse)
    (netO : String → OverviewResponse) (netD : String → DividendResponse)
    (netI : String → IntradayResponse) (netC : String → String → RateResponse)
    (symbol : String) (amount : JsAmount) (from_currency to_currency : String)
    (holdings : List Holding)
    (ha : jsAmountFalsy amount = false) (hn : jsIsNaN amount = false)
    (hf : from_currency ≠ "") (ht : to_currency ≠ "") :
    getStockPrice "" netQ symbol =
      ⟨[], .error "Error: Missing ALPHA_VANTAGE_API_KEY environment variable."⟩ ∧
    getStockNews "" netN symbol =
      ⟨[], .error "Error: Missing ALPHA_VANTAGE_API_KEY environment variable."⟩ ∧
    getCompanyOverview "" netO symbol = ⟨[], .error "API key not set."⟩ ∧
    getDividendHistory "" netD symbol = ⟨[], .error "API key not set."⟩ ∧
    getIntraday "" netI symbol = ⟨[], .error "API key not set."⟩ ∧
    convertCurrency "" netC amount from_currency to_currency =
      ⟨[], .error "API key not set."⟩ ∧
    calculatePortfolioValue "" netQ holdings = ⟨[], .error "API key not set."⟩ ∧
    (∀ (a : JsAmount) (f t : String), (convertCurrency "" netC a f t).fetched = []) := by
  refine ⟨rfl, rfl, rfl, rfl, rfl, ?_, rfl, ?_⟩
  · unfold convertCurrency
    rw [if_neg (by simp [ha, hn]), if_neg (by simp [hf, ht]), if_pos rfl]
  · intro a f t
    unfold convertCurrency
    by_cases h1 : (jsAmountFalsy a || jsIsNaN a) = true
    · simp [h1]
    · rw [if_neg h1]
      by_cases h2 : f = "" ∨ t = ""
      · rw [if_pos h2]
      · rw [if_neg h2, if_pos rfl]

/-- Witness for C2 at concrete inputs: amount 5, USD -> EUR. -/
theorem C2_witness :
    (jsAmountFalsy (.num 5) = false ∧ jsIsNaN (.num 5) = false ∧
      ("USD" : String) ≠ "" ∧ ("EUR" : String) ≠ "") ∧
    getStockPrice "" (fun _ => ⟨true, none⟩) "IBM" =
      ⟨[], .error "Error: Missing ALPHA_VANTAGE_API_KEY environment variable."⟩ ∧
    convertCurrency "" (fun _ _ => ⟨true, none⟩) (.num 5) "USD" "EUR" =
      ⟨[], .error "API key not set."⟩ :=
  ⟨⟨by decide, by decide, by decide, by decide⟩,
   (C2_missing_key (fun _ => ⟨true, none⟩) (fun _ => ⟨true, none⟩)
     (fun _ => ⟨true, none, none, none, none⟩) (fun _ => ⟨true, none⟩)
     (fun _ => ⟨true, none⟩) (fun _ _ => ⟨true, none⟩) "IBM" (.num 5) "USD" "EUR" []
     (by decide) (by decide) (by decide) (by decide)).1,
   (C2_missing_key (fun _ => ⟨true, none⟩) (fun _ => ⟨true, none⟩)
     (fun _ => ⟨true, none, none, none, none⟩) (fun _ => ⟨true, none⟩)
     (fun _ => ⟨true, none⟩) (fun _ _ => ⟨true, none⟩) "IBM" (.num 5) "USD" "EUR" []
     (by decide) (by decide) (by decide) (by decide)).2.2.2.2.2.1⟩

/-- Claim C4: `convertCurrency` fails with the invalid-input error and issues
no network call whenever `amount` is missing or non-numeric (e.g. "abc"), or
(amount being valid) either currency code is missing; and presence is the
only check applied to the currency codes: with a valid amount and both codes
nonempty (and the key set), the handler proceeds to issue the network
request. -/
theorem C4_convertCurrency_input_validation (apiKey : String)
    (net : String → String → RateResponse) (amount : JsAmount)
    (from_currency to_currency : String) :
    (amount = .undef ∨ jsIsNaN amount = true →
      convertCurrency apiKey net amount from_currency to_currency =
        ⟨[], .error "Amount must be a number"⟩) ∧
    (jsAmountFalsy amount = false → jsIsNaN amount = false →
      from_currency = "" ∨ to_currency = "" →
      convertCurrency apiKey net amount from_currency to_currency =
        ⟨[], .error "from_currency and to_currency are required"⟩) ∧
    (jsAmountFalsy amount = false → jsIsNaN amount = false →
      from_currency ≠ "" → to_currency ≠ "" → apiKey ≠ "" →
      (convertCurrency apiKey net amount from_currency to_currency).fetched =
        [currencyUrl from_currency to_currency apiKey]) := by
  refine ⟨?_, ?_, ?_⟩
  · intro h
    have hb : (jsAmountFalsy amount || jsIsNaN amount) = true := by
      rcases h with h | h
      · subst h; decide
      · simp [h]
    unfold convertCurrency
    rw [if_pos hb]
  · intro ha hn hc
    unfold convertCurrency
    rw [if_neg (by simp [ha, hn]), if_pos hc]
  · intro ha hn hf ht hk
    unfold convertCurrency
    rw [if_neg (by simp [ha, hn]), if_neg (by simp [hf, ht]), if_neg hk]
    by_cases hok : (net from_currency to_currency).ok
    · cases hri : (net from_currency to_currency).rateInfo with
      | none => simp [hok, hri]
      | some ri => simp [hok, hri]
    · simp [hok]

/-- Witness for C4 at the spec's example input "abc". -/
theorem C4_witness :
    (jsIsNaN (.str "abc") = true) ∧
    convertCurrency "key" (fun _ _ => ⟨true, none⟩) (.str "abc") "USD" "EUR" =
      ⟨[], .error "Amount must be a number"⟩ :=
  ⟨by decide,
   (C4_convertCurrency_input_validation "key" (fun _ _ => ⟨true, none⟩)
     (.str "abc") "USD" "EUR").1 (Or.inr (by decide))⟩

/-- Claim C9: the number 0, although present and numeric, is JS-falsy, so the
`!amount || isNaN(amount)` gate rejects it: `convertCurrency` fails with
"Amount must be a number" and issues no network call. -/
theorem C9_convertCurrency_rejects_zero (apiKey : String)
    (net : String → String → RateResponse) (from_currency to_currency : String) :
    convertCurrency apiKey net (.num 0) from_currency to_currency =
      ⟨[], .error "Amount must be a number"⟩ ∧
    jsAmountFalsy (.num 0) = true ∧ jsIsNaN (.num 0) = false := by
  refine ⟨?_, by decide, by decide⟩
  unfold convertCurrency
  rw [if_pos (by decide)]

/-- Claim C5, counterexample: a response whose Name field is present (truthy)
but whose Description field is absent makes `getCompanyOverview` raise (the
unguarded `data.Description.substring(0, 300)`), so it does not return a
text result for every response with Name present. -/
theorem C5_counterexample :
    getCompanyOverview "k"
      (fun _ => ⟨true, some "TestCo", some "Technology", some "Software", none⟩) "TST" =
      ⟨[overviewUrl "TST" "k"], .error descriptionTypeError⟩ ∧
    jsTruthy (some "TestCo") = true := by
  exact ⟨by decide, by decide⟩

/-- Claim C5, amended: for every response with Name present (truthy) and
Description present, `getCompanyOverview` returns a text result whose
Description portion is the description truncated to its first 300 characters
followed by the ellipsis marker; a description of at least 300 characters
(e.g. 500) is cut to exactly 300. -/
theorem C5_overview_truncation (apiKey : String) (net : String → OverviewResponse)
    (symbol : String) (d : String) (hk : apiKey ≠ "")
    (hok : (net symbol).ok = true) (hname : jsTruthy (net symbol).name = true)
    (hd : (net symbol).description = some d) :
    getCompanyOverview apiKey net symbol =
      ⟨[overviewUrl symbol apiKey], .ok ⟨["Company: " ++ jsStr (net symbol).name
        ++ "\nSector: " ++ jsStr (net symbol).sector
        ++ "\nIndustry: " ++ jsStr (net symbol).industry
        ++ "\nDescription: " ++ jsSubstringTo d 300 ++ "..."]⟩⟩ ∧
    (300 ≤ d.length → (jsSubstringTo d 300).length = 300) := by
  constructor
  · unfold getCompanyOverview
    rw [if_neg hk]
    simp [hok, hname, hd]
  · intro hlen
    unfold jsSubstringTo
    simpa using hlen

set_option maxRecDepth 8192 in
/-- Witness for C5: a 500-character description is cut to exactly 300
characters plus "...". -/
theorem C5_witness :
    (("k" : String) ≠ "" ∧
      jsTruthy (some "TestCo") = true ∧
      (300 : Nat) ≤ (String.mk (List.replicate 500 'a')).length) ∧
    getCompanyOverview "k"
      (fun _ => ⟨true, some "TestCo", some "Technology", some "Software",
        some (String.mk (List.replicate 500 'a'))⟩) "TST" =
      ⟨[overviewUrl "TST" "k"], .ok ⟨["Company: TestCo\nSector: Technology"
        ++ "\nIndustry: Software"
        ++ "\nDescription: " ++ String.mk (List.replicate 300 'a') ++ "..."]⟩⟩ ∧
    (jsSubstringTo (String.mk (List.replicate 500 'a')) 300).length = 300 :=
  ⟨⟨by decide, by decide, by decide⟩,
   by
    have h := (C5_overview_truncation "k"
      (fun _ => ⟨true, some "TestCo", some "Technology", some "Software",
        some (String.mk (List.replicate 500 'a'))⟩) "TST"
      (String.mk (List.replicate 500 'a')) (by decide) (by decide) (by decide) rfl).1
    rw [h]
    decide,
   (C5_overview_truncation "k"
      (fun _ => ⟨true, some "TestCo", some "Technology", some "Software",
        some (String.mk (List.replicate 500 'a'))⟩) "TST"
      (String.mk (List.replicate 500 'a')) (by decide) (by decide) (by decide) rfl).2
      (by decide)⟩

/-- Claim C10: when Name is present (truthy) but Description is absent,
`getCompanyOverview` fails with the `TypeError` of the unguarded
`substring` access instead of returning a ToolResult; consequently every
successful overview result requires the Description field to be present,
not only Name. -/
theorem C10_overview_description_required :
    (∀ (apiKey : String) (net : String → OverviewResponse) (symbol : String),
      apiKey ≠ "" → (net symbol).ok = true → jsTruthy (net symbol).name = true →
      (net symbol).description = none →
      getCompanyOverview apiKey net symbol =
        ⟨[overviewUrl symbol apiKey], .error descriptionTypeError⟩) ∧
    (∀ (apiKey : String) (net : String → OverviewResponse) (symbol : String)
      (r : ToolResult),
      (getCompanyOverview apiKey net symbol).result = .ok r →
      (net symbol).description.isSome = true) := by
  constructor
  · intro apiKey net symbol hk hok hname hd
    unfold getCompanyOverview
    rw [if_neg hk]
    simp [hok, hname, hd]
  · intro apiKey net symbol r h
    by_cases hk : apiKey = ""
    · unfold getCompanyOverview at h
      rw [if_pos hk] at h
      cases h
    · unfold getCompanyOverview at h
      rw [if_neg hk] at h
      by_cases hok : (net symbol).ok
      · by_cases hname : jsTruthy (net symbol).name
        · cases hd : (net symbol).description with
          | none => simp [hok, hname, hd] at h
          | some d => rfl
        · simp [hok, hname] at h
      · simp [hok] at h

/-- Witness for C10: Name "TestCo" present, Description absent. -/
theorem C10_witness :
    (("k" : String) ≠ "" ∧ jsTruthy (some "TestCo") = true) ∧
    getCompanyOverview "k"
      (fun _ => ⟨true, some "TestCo", none, none, none⟩) "TST" =
      ⟨[overviewUrl "TST" "k"], .error descriptionTypeError⟩ :=
  ⟨⟨by decide, by decide⟩,
   C10_overview_description_required.1 "k"
     (fun _ => ⟨true, some "TestCo", none, none, none⟩) "TST"
     (by decide) (by decide) (by decide) rfl⟩

/-- Claim C6: when the upstream feed field is absent or an empty list,
`getStockNews` returns a successful ToolResult carrying the explanatory
no-news message — `Except.ok`, not an error. -/
theorem C6_news_empty_feed_not_error (apiKey : String) (net : String → NewsResponse)
    (symbol : String) (hk : apiKey ≠ "") (hok : (net symbol).ok = true)
    (hfeed : (net symbol).feed = none ∨ (net symbol).feed = some []) :
    getStockNews apiKey net symbol =
      ⟨[newsUrl symbol apiKey], .ok ⟨["No recent news found for " ++ symbol]⟩⟩ := by
  unfold getStockNews
  rw [if_neg hk]
  rcases hfeed with h | h <;> simp [hok, h]

/-- Witness for C6: empty feed for TSLA. -/
theorem C6_witness :
    (("k" : String) ≠ "" ∧
      ((fun _ => (⟨true, some []⟩ : NewsResponse)) "TSLA").feed = some []) ∧
    getStockNews "k" (fun _ => ⟨true, some []⟩) "TSLA" =
      ⟨[newsUrl "TSLA" "k"], .ok ⟨["No recent news found for TSLA"]⟩⟩ :=
  ⟨⟨by decide, rfl⟩,
   C6_news_empty_feed_not_error "k" (fun _ => ⟨true, some []⟩) "TSLA"
     (by decide) rfl (Or.inr rfl)⟩

/-- Claim C7: when the 5-minute time-series mapping is present with at least 3
timestamps, `getIntraday` lists exactly the first 3 timestamps in
provider-returned key order, each with its open and close values, and no
others. -/
theorem C7_intraday_first_three (apiKey : String) (net : String → IntradayResponse)
    (symbol : String) (l : List (String × IntradayPoint))
    (hk : apiKey ≠ "") (hok : (net symbol).ok = true)
    (hs : (net symbol).series = some l) (hlen : 3 ≤ l.length) :
    getIntraday apiKey net symbol =
      ⟨[intradayUrl symbol apiKey],
       .ok ⟨["Recent intraday (5min) prices for " ++ jsToUpper symbol ++ ":\n"
        ++ String.intercalate "\n" ((l.take 3).map intradayLine)]⟩⟩ ∧
    (l.take 3).length = 3 := by
  constructor
  · unfold getIntraday
    rw [if_neg hk]
    simp [hok, hs]
  · simp [Nat.min_eq_left hlen]

/-- A sample provider series of 10 timestamps in provider-returned order. -/
def sampleSeries10 : List (String × IntradayPoint) :=
  [("t10", ⟨some "10", some "11"⟩), ("t09", ⟨some "20", some "21"⟩),
   ("t08", ⟨some "30", some "31"⟩), ("t07", ⟨some "40", some "41"⟩),
   ("t06", ⟨some "50", some "51"⟩), ("t05", ⟨some "60", some "61"⟩),
   ("t04", ⟨some "70", some "71"⟩), ("t03", ⟨some "80", some "81"⟩),
   ("t02", ⟨some "90", some "91"⟩), ("t01", ⟨some "95", some "96"⟩)]

/-- Witness for C7: a series of 10 timestamps yields exactly the first 3. -/
theorem C7_witness :
    (("k" : String) ≠ "" ∧ 3 ≤ sampleSeries10.length) ∧
    getIntraday "k" (fun _ => ⟨true, some sampleSeries10⟩) "msft" =
      ⟨[intradayUrl "msft" "k"],
       .ok ⟨["Recent intraday (5min) prices for MSFT:\n"
        ++ "t10: Open $10, Close $11\nt09: Open $20, Close $21\nt08: Open $30, Close $31"]⟩⟩ :=
  ⟨⟨by decide, by decide⟩, by
    have h := (C7_intraday_first_three "k" (fun _ => ⟨true, some sampleSeries10⟩)
      "msft" sampleSeries10 (by decide) rfl rfl (by decide)).1
    rw [h]
    decide⟩

/-- Claim C8: every ToolResult returned on any successful path of any of the
seven handlers has a content sequence with at least one element (each
success branch returns a one-element content array), including the degraded
empty-news, empty-dividends and all-holdings-skipped paths. -/
theorem C8_content_nonempty :
    (∀ (k : String) (net : String → QuoteResponse) (s : String) (r : ToolResult),
      (getStockPrice k net s).result = .ok r → 0 < r.content.length) ∧
    (∀ (k : String) (net : String → NewsResponse) (s : String) (r : ToolResult),
      (getStockNews k net s).result = .ok r → 0 < r.content.length) ∧
    (∀ (k : String) (net : String → OverviewResponse) (s : String) (r : ToolResult),
      (getCompanyOverview k net s).result = .ok r → 0 < r.content.length) ∧
    (∀ (k : String) (net : String → DividendResponse) (s : String) (r : ToolResult),
      (getDividendHistory k net s).result = .ok r → 0 < r.content.length) ∧
    (∀ (k : String) (net : String → IntradayResponse) (s : String) (r : ToolResult),
      (getIntraday k net s).result = .ok r → 0 < r.content.length) ∧
    (∀ (k : String) (net : String → String → RateResponse) (a : JsAmount)
      (f t : String) (r : ToolResult),
      (convertCurrency k net a f t).result = .ok r → 0 < r.content.length) ∧
    (∀ (k : String) (net : String → QuoteResponse) (hs : List Holding) (r : ToolResult),
      (calculatePortfolioValue k net hs).result = .ok r → 0 < r.content.length) := by
  refine ⟨?_, ?_, ?_, ?_, ?_, ?_, ?_⟩
  · intro k net s r h
    by_cases hk : k = ""
    · unfold getStockPrice at h; rw [if_pos hk] at h; cases h
    · unfold getStockPrice at h; rw [if_neg hk] at h
      by_cases hok : (net s).ok
      · cases hp : priceOf (net s) with
        | none => simp [hok, hp] at h
        | some p => simp [hok, hp] at h; simp [← h]
      · simp [hok] at h
  · intro k net s r h
    by_cases hk : k = ""
    · unfold getStockNews at h; rw [if_pos hk] at h; cases h
    · unfold getStockNews at h; rw [if_neg hk] at h
      by_cases hok : (net s).ok
      · cases hf : (net s).feed with
        | none => simp [hok, hf] at h; simp [← h]
        | some feed =>
          by_cases hl : feed.length = 0
          · simp [hok, hf, hl] at h; simp [← h]
          · simp [hok, hf, hl] at h; simp [← h]
      · simp [hok] at h
  · intro k net s r h
    by_cases hk : k = ""
    · unfold getCompanyOverview at h; rw [if_pos hk] at h; cases h
    · unfold getCompanyOverview at h; rw [if_neg hk] at h
      by_cases hok : (net s).ok
      · by_cases hname : jsTruthy (net s).name
        · cases hd : (net s).description with
          | none => simp [hok, hname, hd] at h
          | some d => simp [hok, hname, hd] at h; simp [← h]
        · simp [hok, hname] at h
      · simp [hok] at h
  · intro k net s r h
    by_cases hk : k = ""
    · unfold getDividendHistory at h; rw [if_pos hk] at h; cases h
    · unfold getDividendHistory at h; rw [if_neg hk] at h
      by_cases hok : (net s).ok
      · cases hh : (net s).historical with
        | none => simp [hok, hh] at h; simp [← h]
        | some hist =>
          by_cases hl : hist.length = 0
          · simp [hok, hh, hl] at h; simp [← h]
          · simp [hok, hh, hl] at h; simp [← h]
      · simp [hok] at h
  · intro k net s r h
    by_cases hk : k = ""
    · unfold getIntraday at h; rw [if_pos hk] at h; cases h
    · unfold getIntraday at h; rw [if_neg hk] at h
      by_cases hok : (net s).ok
      · cases hs : (net s).series with
        | none => simp [hok, hs] at h
        | some series => simp [hok, hs] at h; simp [← h]
      · simp [hok] at h
  · intro k net a f t r h
    unfold convertCurrency at h
    by_cases h1 : (jsAmountFalsy a || jsIsNaN a) = true
    · rw [if_pos h1] at h; cases h
    · rw [if_neg h1] at h
      by_cases h2 : f = "" ∨ t = ""
      · rw [if_pos h2] at h; cases h
      · rw [if_neg h2] at h
        by_cases hk : k = ""
        · rw [if_pos hk] at h; cases h
        · rw [if_neg hk] at h
          by_cases hok : (net f t).ok
          · cases hri : (net f t).rateInfo with
            | none => simp [hok, hri] at h
            | some ri => simp [hok, hri] at h; simp [← h]
          · simp [hok] at h
  · intro k net hs r h
    by_cases hk : k = ""
    · unfold calculatePortfolioValue at h; rw [if_pos hk] at h; cases h
    · unfold calculatePortfolioValue at h; rw [if_neg hk] at h
      by_cases he : hs.isEmpty
      · rw [if_pos he] at h; cases h
      · rw [if_neg he] at h
        simp at h; simp [← h]

/-- Witness for C8 on a degraded path: empty news feed. -/
theorem C8_witness :
    ((getStockNews "k" (fun _ => (⟨true, some []⟩ : NewsResponse)) "X").result =
      .ok ⟨["No recent news found for X"]⟩) ∧
    0 < (⟨["No recent news found for X"]⟩ : ToolResult).content.length :=
  ⟨by decide,
   C8_content_nonempty.2.1 "k" (fun _ => ⟨true, some []⟩) "X"
     ⟨["No recent news found for X"]⟩ (by decide)⟩
